import Mathlib

/-!
# Sigmoid focal loss (forward) launcher for MLU: tiling policy and validation

Shallow embedding of `mmcv/ops/csrc/pytorch/mlu/focal_loss_sigmoid_mlu.cpp`.

* Tensor sizes (`int64_t`, never negative) and device attributes (`int`) are natural numbers.
* Arithmetic that the C++ performs in `size_t` is reduced modulo `2 ^ 64` (`wrap64`, `sub64`);
  `k_dim->y` is an `unsigned int` and is reduced modulo `2 ^ 32`; the `int` product `core_num`
  is reduced to 32 bits in two's complement.
* `TORCH_CHECK` failures are `Except.error` carrying the argument list of the check.
* A division by zero has no defined result: `policyFunc` returns `none` there.
-/

namespace FocalLossSigmoidMLU

/-! ## Machine integers -/

/-- Reduction of a natural number to the range of `size_t` (64 bits). -/
def wrap64 (x : Nat) : Nat := x % 2 ^ 64

/-- Subtraction of `size_t` values, wrapping around on underflow. -/
def sub64 (a b : Nat) : Nat := (a % 2 ^ 64 + (2 ^ 64 - b % 2 ^ 64)) % 2 ^ 64

/-- Reduction of a natural number to the range of `unsigned int` (32 bits). -/
def wrap32 (x : Nat) : Nat := x % 2 ^ 32

/-- Modelled from the spec: the macro `PAD_UP` of `pytorch_mlu_helper.hpp` (not part of the
sources), the spec's `alignUp`: `x` rounded up to a multiple of `y`, computed in `size_t`. -/
def PAD_UP (x y : Nat) : Nat := wrap64 ((x / y + (if x % y > 0 then 1 else 0)) * y)

/-- Modelled from the spec: the macro `PAD_DOWN` of `pytorch_mlu_helper.hpp` (not part of the
sources), the spec's "rounded down to alignment": `x` rounded down to a multiple of `y`. -/
def PAD_DOWN (x y : Nat) : Nat := wrap64 (x / y * y)

/-! ## Tensors -/

/-- Element types of a tensor (`at::ScalarType`). -/
inductive ScalarType
  | Byte | Char | Short | Int | Long | Half | Float | Double
  | ComplexHalf | ComplexFloat | ComplexDouble | Bool | BFloat16
  deriving DecidableEq

/-- Size in bytes of one element of the given type. -/
def ScalarType.itemsize : ScalarType → Nat
  | .Byte => 1 | .Char => 1 | .Short => 2 | .Int => 4 | .Long => 8
  | .Half => 2 | .Float => 4 | .Double => 8
  | .ComplexHalf => 4 | .ComplexFloat => 8 | .ComplexDouble => 16
  | .Bool => 1 | .BFloat16 => 2

/-- The part of a tensor the launcher looks at: its shape, its element type and its data
pointer (`0` is `nullptr`). -/
structure Tensor where
  sizes : List Nat
  dtype : ScalarType
  data_ptr : Nat
  deriving DecidableEq

namespace Tensor

/-- `t.dim()`. -/
def dim (t : Tensor) : Nat := t.sizes.length

/-- `t.size(i)`; the source reads `size(i)` only after the check `i < dim()` has passed. -/
def size (t : Tensor) (i : Nat) : Nat := t.sizes.getD i 0

/-- `t.scalar_type()`. -/
def scalar_type (t : Tensor) : ScalarType := t.dtype

/-- `t.itemsize()`. -/
def itemsize (t : Tensor) : Nat := t.dtype.itemsize

/-- `t.numel()`. -/
def numel (t : Tensor) : Nat := t.sizes.prod

end Tensor

/-! ## Device -/

/-- The device attributes read through `torch_mlu::getDeviceAttr`:
`cnrtAttrNramSizePerMcore`, `cnrtAttrMcorePerCluster` and `cnrtAttrClusterCount`. -/
structure DeviceAttr where
  nram_size : Nat
  core_dim : Nat
  cluster_num : Nat
  deriving DecidableEq

/-- Kernel function types; the launcher uses `CNRT_FUNC_TYPE_UNION1`. -/
inductive cnrtFunctionType_t
  | CNRT_FUNC_TYPE_BLOCK | CNRT_FUNC_TYPE_UNION1 | CNRT_FUNC_TYPE_UNION2
  | CNRT_FUNC_TYPE_UNION4 | CNRT_FUNC_TYPE_UNION8
  deriving DecidableEq

/-- Task dimension of a kernel launch. -/
structure cnrtDim3_t where
  x : cnrtFunctionType_t
  y : Nat
  z : Nat
  deriving DecidableEq

/-- A single precision value, as far as the launcher looks at it: not-a-number, an infinity,
or a signed magnitude `mantissa * 2 ^ exponent`. -/
inductive float
  | nan
  | inf (negative : Bool)
  | finite (negative : Bool) (mantissa : Nat) (exponent : Int)
  deriving DecidableEq

/-- The comparison `x >= 0`: false on not-a-number, true on both zeros. -/
def float.ge_zero : float → Bool
  | .nan => false
  | .inf negative => !negative
  | .finite negative mantissa _ => !negative || mantissa == 0

/-! ## policyFunc -/

namespace policyFunc

/-- `c_align_size = PAD_UP((C * input.itemsize()), NFU_ALIGN_SIZE)`. -/
def c_align_size (NFU_ALIGN_SIZE C input_itemsize : Nat) : Nat :=
  PAD_UP (wrap64 (C * input_itemsize)) NFU_ALIGN_SIZE

/-- `weight_size = c_align_size`. -/
def weight_size (NFU_ALIGN_SIZE C input_itemsize : Nat) : Nat :=
  c_align_size NFU_ALIGN_SIZE C input_itemsize

/-- `scalar_size = NFU_ALIGN_SIZE`. -/
def scalar_size (NFU_ALIGN_SIZE : Nat) : Nat := NFU_ALIGN_SIZE

/-- The divisor of `n_seg`:
`c_align_size * split_pipeline_num + target.itemsize() * split_target_num`. -/
def row_size (NFU_ALIGN_SIZE C input_itemsize target_itemsize : Nat) : Nat :=
  let split_target_num := 2
  let split_pipeline_num := 6
  wrap64 (wrap64 (c_align_size NFU_ALIGN_SIZE C input_itemsize * split_pipeline_num)
    + wrap64 (target_itemsize * split_target_num))

/-- `n_seg = (nram_size - weight_size - scalar_size) / (c_align_size * split_pipeline_num
+ target.itemsize() * split_target_num)`, in `size_t`. -/
def n_seg (nram_size NFU_ALIGN_SIZE C input_itemsize target_itemsize : Nat) : Nat :=
  sub64 (sub64 nram_size (weight_size NFU_ALIGN_SIZE C input_itemsize))
      (scalar_size NFU_ALIGN_SIZE)
    / row_size NFU_ALIGN_SIZE C input_itemsize target_itemsize

/-- `seg_num = (N + n_seg - 1) / n_seg`, in `size_t`. -/
def seg_num (N n_seg : Nat) : Nat := sub64 (wrap64 (N + n_seg)) 1 / n_seg

/-- `core_num = core_dim * cluster_num`, a product of two `int` values held in an `int` (two's
complement on overflow), as the `size_t` value it is converted to in the comparison
`seg_num > core_num`: a negative `int` becomes `2 ^ 64` minus its magnitude. -/
def core_num (core_dim cluster_num : Nat) : Nat :=
  let product := core_dim * cluster_num % 2 ^ 32
  if product < 2 ^ 31 then product else product + (2 ^ 64 - 2 ^ 32)

/-- `k_dim->y = seg_num > core_num ? cluster_num : (seg_num + core_dim - 1) / core_dim`,
stored in an `unsigned int`. -/
def k_dim_y (core_dim cluster_num seg_num : Nat) : Nat :=
  let core_num := core_num core_dim cluster_num
  wrap32 (if seg_num > core_num then cluster_num
    else sub64 (wrap64 (seg_num + core_dim)) 1 / core_dim)

/-- The left-hand side of the memory inequality stated above `n_seg` in the source, for a tile
of `n` rows: `n * c_align_size * split_pipeline_num + n * target.itemsize() * split_target_num
+ weight_size + scalar_size`, as a natural number (no wrap-around). -/
def tile_size (n NFU_ALIGN_SIZE C input_itemsize target_itemsize : Nat) : Nat :=
  let split_target_num := 2
  let split_pipeline_num := 6
  n * c_align_size NFU_ALIGN_SIZE C input_itemsize * split_pipeline_num
    + n * target_itemsize * split_target_num
    + weight_size NFU_ALIGN_SIZE C input_itemsize + scalar_size NFU_ALIGN_SIZE

end policyFunc

/-- The policy function: the task dimension for the tensors, or `none` where the source
divides by zero (`row_size`, `n_seg` or `core_dim` is zero at its division). -/
def policyFunc (dev : DeviceAttr) (NFU_ALIGN_SIZE : Nat) (k_type : cnrtFunctionType_t)
    (input target _weight : Tensor) : Option cnrtDim3_t :=
  let N := input.size 0
  let C := input.size 1
  let nram_size := dev.nram_size
  if policyFunc.row_size NFU_ALIGN_SIZE C input.itemsize target.itemsize = 0 then none else
  let n_seg := policyFunc.n_seg nram_size NFU_ALIGN_SIZE C input.itemsize target.itemsize
  if n_seg = 0 then none else
  let seg_num := policyFunc.seg_num N n_seg
  let core_dim := dev.core_dim
  let cluster_num := dev.cluster_num
  let core_num := policyFunc.core_num core_dim cluster_num
  if ¬ seg_num > core_num ∧ core_dim = 0 then none else
  some { x := k_type, y := policyFunc.k_dim_y core_dim cluster_num seg_num, z := 1 }

/-! ## Validation -/

/-- One argument of a `TORCH_CHECK` message. -/
inductive MsgPart
  | text (s : String)
  | num (n : Nat)
  | dtype (t : ScalarType)
  | real (x : float)
  deriving DecidableEq

/-- The message of a failed `TORCH_CHECK`: its arguments in order. -/
abbrev Message := List MsgPart

/-- `TORCH_CHECK(cond, msg...)`. -/
def TORCH_CHECK (cond : Bool) (msg : Message) : Except Message Unit :=
  if cond then .ok () else .error msg

/-- The check of shapes, element types and weight. -/
def checkFocalLossSigmoidForwardValidation (input target weight output : Tensor) :
    Except Message Unit := do
  -- check shape
  TORCH_CHECK (input.dim == 2)
    [.text "Dimension num of input should be 2. ", .text "But now is ", .num input.dim,
     .text "."]
  TORCH_CHECK (target.dim == 1)
    [.text "Dimension num of target should be 1. ", .text "But now is ", .num target.dim,
     .text "."]
  TORCH_CHECK (input.size 0 == target.size 0)
    [.text "Element num of target should be ", .num (input.size 0), .text ". But now is ",
     .num (target.size 0), .text "."]
  TORCH_CHECK (output.dim == 2)
    [.text "Dimension num of target should be 2. ", .text "But now is ", .num output.dim,
     .text "."]
  TORCH_CHECK (input.size 0 == output.size 0 && input.size 1 == output.size 1)
    [.text "Shape of output and input must be euqal, but now output is ",
     .num (output.size 0), .text ", ", .num (output.size 1), .text " and input is ",
     .num (input.size 0), .text ", ", .num (input.size 1), .text "."]
  -- check dtype
  TORCH_CHECK (input.scalar_type == .Float || input.scalar_type == .Half)
    [.text "Data type of input should be Float or Half. But now input type is ",
     .dtype input.scalar_type, .text "."]
  TORCH_CHECK (target.scalar_type == .Long)
    [.text "target type should be Long. ", .text "But now target type is ",
     .dtype target.scalar_type, .text "."]
  TORCH_CHECK (output.scalar_type == input.scalar_type)
    [.text "Data types of input and output should be the same. But now input type is ",
     .dtype input.scalar_type, .text ", output type is ", .dtype output.scalar_type,
     .text "."]
  -- check weight
  if weight.data_ptr != 0 then
    TORCH_CHECK (weight.scalar_type == input.scalar_type)
      [.text "Data types of input and weight should be the same. But now input type is ",
       .dtype input.scalar_type, .text ", weight type is ", .dtype weight.scalar_type,
       .text "."]
    TORCH_CHECK (weight.dim == 1)
      [.text "Dimension num of weight should be 1.", .text "But now is ", .num weight.dim,
       .text "."]
    TORCH_CHECK (weight.size 0 == input.size 1)
      [.text "Element num of weight should be ", .num (input.size 1),
       .text ". But now is ", .num (weight.size 0), .text "."]
  else
    pure ()

/-! ## Launcher -/

/-- The arguments of one invocation of `KernelFocalLossSigmoidForward` (queue and device
pointers left out). -/
structure KernelCall where
  k_dim : cnrtDim3_t
  k_type : cnrtFunctionType_t
  d_type : ScalarType
  input_N : Nat
  input_C : Nat
  alpha : float
  gamma : float
  deriving DecidableEq

/-- What one call of the launcher does. -/
inductive LaunchOutcome
  /-- A `TORCH_CHECK` failed. -/
  | rejected (msg : Message)
  /-- Return on zero-element tensors, nothing launched. -/
  | skipped
  /-- The policy function divided by zero. -/
  | undefined
  /-- The kernel was launched once with these arguments. -/
  | launched (call : KernelCall)
  deriving DecidableEq

/-- The kernel invocations of an outcome, in order. -/
def LaunchOutcome.trace : LaunchOutcome → List KernelCall
  | .launched call => [call]
  | _ => []

/-- `threshold_C = PAD_DOWN((nram_size - NFU_ALIGN_SIZE - split_target_num *
target.itemsize() / 2) / split_pipeline_num, NFU_ALIGN_SIZE) / input.itemsize()`. -/
def threshold_C (nram_size NFU_ALIGN_SIZE input_itemsize target_itemsize : Nat) : Nat :=
  let split_target_num := 2
  let split_pipeline_num := 6
  PAD_DOWN (sub64 (sub64 nram_size NFU_ALIGN_SIZE)
      (wrap64 (split_target_num * target_itemsize) / 2) / split_pipeline_num)
    NFU_ALIGN_SIZE / input_itemsize

/-- The message of the class-count check. -/
def classCountMessage (threshold_C input_C : Nat) : Message :=
  [.text "input.size(1) should be in the range of [0, ", .num threshold_C, .text "]. ",
   .text "But now input.size(1) is ", .num input_C, .text "."]

/-- The message of the check of `gamma`. -/
def gammaMessage (gamma : float) : Message :=
  [.text "gamma should be greater than or equal to 0. ", .text "But now gamma is ",
   .real gamma, .text "."]

/-- The launcher of the forward kernel. -/
def SigmoidFocalLossForwardMLUKernelLauncher (dev : DeviceAttr) (NFU_ALIGN_SIZE : Nat)
    (input target weight output : Tensor) (gamma alpha : float) : LaunchOutcome :=
  -- params check
  if ¬ gamma.ge_zero then .rejected (gammaMessage gamma) else
  match checkFocalLossSigmoidForwardValidation input target weight output with
  | .error msg => .rejected msg
  | .ok () =>
    -- check C
    let input_N := input.size 0
    let input_C := input.size 1
    let nram_size := dev.nram_size
    let threshold_C := threshold_C nram_size NFU_ALIGN_SIZE input.itemsize target.itemsize
    if ¬ threshold_C ≥ input_C then .rejected (classCountMessage threshold_C input_C) else
    if input.numel = 0 ∨ target.numel = 0 ∨ output.numel = 0 then
      -- return if zero-element
      .skipped
    else
      -- calculate task dimension
      let k_type := cnrtFunctionType_t.CNRT_FUNC_TYPE_UNION1
      match policyFunc dev NFU_ALIGN_SIZE k_type input target weight with
      | none => .undefined
      | some k_dim =>
        -- launch kernel
        .launched { k_dim := k_dim, k_type := k_type, d_type := input.dtype,
                    input_N := input_N, input_C := input_C, alpha := alpha, gamma := gamma }

/-! ## Predicates of the specification -/

/-- The comparison `x < 0`: false on not-a-number and on both zeros. -/
def float.lt_zero : float → Bool
  | .nan => false
  | .inf negative => negative
  | .finite negative mantissa _ => negative && mantissa != 0

/-- The bytes of a row of `C` classes padded up to the alignment, as a natural number: the
memory the row takes, which is the value of `c_align_size` and of `weight_size` whenever
nothing wraps around in `size_t`. -/
def paddedRowBytes (NFU_ALIGN_SIZE C input_itemsize : Nat) : Nat :=
  (C * input_itemsize / NFU_ALIGN_SIZE
    + (if C * input_itemsize % NFU_ALIGN_SIZE > 0 then 1 else 0)) * NFU_ALIGN_SIZE

/-- Whether the characters `p` are the first characters of `s`. -/
def startsWith : List Char → List Char → Bool
  | _, [] => true
  | [], _ :: _ => false
  | c :: s, d :: p => c == d && startsWith s p

/-- Whether the characters `p` occur in `s` as a contiguous run. -/
def occursIn (p : List Char) : List Char → Bool
  | [] => p.isEmpty
  | c :: s => startsWith (c :: s) p || occursIn p s

/-- The message names the tensor: one of its text arguments contains the name of the
tensor. -/
def namesTensor (msg : Message) (tensor : String) : Bool :=
  msg.any fun part =>
    match part with
    | .text s => occursIn tensor.data s.data
    | _ => false

/-! ## Machine arithmetic lemmas -/

theorem wrap64_le (x : Nat) : wrap64 x ≤ x := Nat.mod_le _ _

theorem wrap64_lt (x : Nat) : wrap64 x < 2 ^ 64 := Nat.mod_lt _ (by norm_num)

theorem wrap64_of_lt {x : Nat} (h : x < 2 ^ 64) : wrap64 x = x := Nat.mod_eq_of_lt h

theorem sub64_lt (a b : Nat) : sub64 a b < 2 ^ 64 := Nat.mod_lt _ (by norm_num)

theorem sub64_of_le {a b : Nat} (hb : b ≤ a) (ha : a < 2 ^ 64) : sub64 a b = a - b := by
  unfold sub64
  omega

/-- The quotient used by `PAD_UP` is the ceiling of `x / A`. -/
theorem padUp_quot_le {x A m : Nat} (h : x ≤ m * A) :
    (x / A + (if x % A > 0 then 1 else 0)) * A ≤ m * A := by
  rcases Nat.eq_zero_or_pos A with hA | hA
  · subst hA; simp
  · apply Nat.mul_le_mul_right
    have hdm := Nat.div_add_mod x A
    have hq : x / A ≤ m := by
      apply Nat.div_le_of_le_mul
      rw [Nat.mul_comm]; exact h
    split
    · rename_i hr
      have hlt : A * (x / A) < A * m := by
        have : A * m = m * A := Nat.mul_comm _ _
        omega
      have := Nat.lt_of_mul_lt_mul_left hlt
      omega
    · omega

theorem le_padUp_quot {x A : Nat} (hA : 0 < A) :
    x ≤ (x / A + (if x % A > 0 then 1 else 0)) * A := by
  have hdm := Nat.div_add_mod x A
  have hr := Nat.mod_lt x hA
  split
  · rw [Nat.add_mul, Nat.mul_comm (x / A) A]; omega
  · rw [Nat.add_mul, Nat.mul_comm (x / A) A]; omega

theorem padUp_quot_lt {x A : Nat} (hA : 0 < A) :
    (x / A + (if x % A > 0 then 1 else 0)) * A < x + A := by
  have hdm := Nat.div_add_mod x A
  have hr := Nat.mod_lt x hA
  split
  · rw [Nat.add_mul, Nat.mul_comm (x / A) A]; omega
  · rw [Nat.add_mul, Nat.mul_comm (x / A) A]; omega

theorem PAD_UP_le_of_le_mul {x A m : Nat} (h : x ≤ m * A) : PAD_UP x A ≤ m * A :=
  Nat.le_trans (wrap64_le _) (padUp_quot_le h)

theorem PAD_DOWN_le (x A : Nat) : PAD_DOWN x A ≤ x :=
  Nat.le_trans (wrap64_le _) (Nat.div_mul_le_self x A)

theorem PAD_DOWN_eq {x A : Nat} (hx : x < 2 ^ 64) : PAD_DOWN x A = x / A * A :=
  wrap64_of_lt (Nat.lt_of_le_of_lt (Nat.div_mul_le_self x A) hx)

/-! ## Arithmetic of the policy function -/

theorem ScalarType.itemsize_pos (t : ScalarType) : 0 < t.itemsize := by
  cases t <;> decide

theorem ScalarType.itemsize_le (t : ScalarType) : t.itemsize ≤ 16 := by
  cases t <;> decide

/-- Below the threshold of the launcher the padded row, taken six times, fits beside the
scalar region and one target element. -/
theorem c_align_size_of_le_threshold {nram A C isz tsz : Nat} (hn : nram < 2 ^ 64)
    (ht : tsz < 2 ^ 63) (hb : A + tsz ≤ nram) (hC : C ≤ threshold_C nram A isz tsz) :
    6 * policyFunc.c_align_size A C isz + A + tsz ≤ nram := by
  have h1 : sub64 nram A = nram - A := sub64_of_le (by omega) hn
  have h2 : wrap64 (2 * tsz) / 2 = tsz := by
    rw [wrap64_of_lt (by omega)]; omega
  have h3 : sub64 (nram - A) tsz = nram - A - tsz := sub64_of_le (by omega) (by omega)
  simp only [threshold_C, h1, h2, h3] at hC
  have hq : (nram - A - tsz) / 6 < 2 ^ 64 := by omega
  rw [PAD_DOWN_eq hq] at hC
  have hx : C * isz ≤ (nram - A - tsz) / 6 / A * A := by
    rcases Nat.eq_zero_or_pos isz with h0 | h0
    · subst h0; simp
    · exact (Nat.le_div_iff_mul_le h0).1 hC
  have hP := Nat.div_mul_le_self ((nram - A - tsz) / 6) A
  have hw : wrap64 (C * isz) = C * isz := wrap64_of_lt (by omega)
  have hc : policyFunc.c_align_size A C isz ≤ (nram - A - tsz) / 6 / A * A := by
    unfold policyFunc.c_align_size
    rw [hw]
    exact PAD_UP_le_of_le_mul hx
  omega

/-- Without wrap-around, `n_seg` is the quotient of the free bytes by the bytes of a row. -/
theorem n_seg_eq {nram A C isz tsz : Nat} (hn : nram < 2 ^ 31) (ht : tsz ≤ 16)
    (hfit : policyFunc.weight_size A C isz + policyFunc.scalar_size A ≤ nram) :
    policyFunc.n_seg nram A C isz tsz
      = (nram - policyFunc.c_align_size A C isz - A)
          / (policyFunc.c_align_size A C isz * 6 + tsz * 2) := by
  simp only [policyFunc.weight_size, policyFunc.scalar_size] at hfit
  have h1 : sub64 nram (policyFunc.c_align_size A C isz)
      = nram - policyFunc.c_align_size A C isz := sub64_of_le (by omega) (by omega)
  have h2 : sub64 (nram - policyFunc.c_align_size A C isz) A
      = nram - policyFunc.c_align_size A C isz - A := sub64_of_le (by omega) (by omega)
  have h3 : wrap64 (policyFunc.c_align_size A C isz * 6)
      = policyFunc.c_align_size A C isz * 6 := wrap64_of_lt (by omega)
  have h4 : wrap64 (tsz * 2) = tsz * 2 := wrap64_of_lt (by omega)
  have h5 : wrap64 (policyFunc.c_align_size A C isz * 6 + tsz * 2)
      = policyFunc.c_align_size A C isz * 6 + tsz * 2 := wrap64_of_lt (by omega)
  simp only [policyFunc.n_seg, policyFunc.row_size, policyFunc.weight_size,
    policyFunc.scalar_size, h1, h2, h3, h4, h5]

theorem row_size_even (A C isz tsz : Nat) : policyFunc.row_size A C isz tsz % 2 = 0 := by
  simp only [policyFunc.row_size, wrap64]
  omega

theorem n_seg_lt {nram A C isz tsz : Nat} (h : 1 ≤ policyFunc.n_seg nram A C isz tsz) :
    policyFunc.n_seg nram A C isz tsz < 2 ^ 63 := by
  have he := row_size_even A C isz tsz
  unfold policyFunc.n_seg at h ⊢
  have hnum := sub64_lt (sub64 nram (policyFunc.weight_size A C isz)) (policyFunc.scalar_size A)
  generalize sub64 (sub64 nram (policyFunc.weight_size A C isz)) (policyFunc.scalar_size A) = num at *
  generalize policyFunc.row_size A C isz tsz = d at *
  have hd : 2 ≤ d := by
    rcases Nat.lt_or_ge d 2 with hlt | hge
    · have : d = 0 := by omega
      subst this; simp at h
    · exact hge
  have : num / d ≤ num / 2 := Nat.div_le_div_left hd (by norm_num)
  omega

theorem seg_num_eq {N n : Nat} (hN : N < 2 ^ 63) (h1 : 1 ≤ n) (hn : n < 2 ^ 63) :
    policyFunc.seg_num N n = (N + n - 1) / n := by
  have h2 : wrap64 (N + n) = N + n := wrap64_of_lt (by omega)
  have h3 : sub64 (N + n) 1 = N + n - 1 := sub64_of_le (by omega) (by omega)
  simp only [policyFunc.seg_num, h2, h3]

theorem ceil_div_spec {N n : Nat} (hn : 0 < n) :
    N ≤ (N + n - 1) / n * n ∧ ∀ k : Nat, N ≤ k * n → (N + n - 1) / n ≤ k := by
  constructor
  · have hdm := Nat.div_add_mod (N + n - 1) n
    have hr := Nat.mod_lt (N + n - 1) hn
    rw [Nat.mul_comm]; omega
  · intro k hk
    apply Nat.lt_succ_iff.1
    rw [Nat.div_lt_iff_lt_mul hn, Nat.succ_mul]
    omega

theorem c_align_size_mono {A C1 C2 isz : Nat} (hle : C1 ≤ C2)
    (hrep : C2 * isz + A ≤ 2 ^ 64) :
    policyFunc.c_align_size A C1 isz ≤ policyFunc.c_align_size A C2 isz := by
  rcases Nat.eq_zero_or_pos A with hA | hA
  · subst hA; simp [policyFunc.c_align_size, PAD_UP, wrap64]
  · have hx : C1 * isz ≤ C2 * isz := Nat.mul_le_mul_right _ hle
    have h1 : wrap64 (C1 * isz) = C1 * isz := wrap64_of_lt (by omega)
    have h2 : wrap64 (C2 * isz) = C2 * isz := wrap64_of_lt (by omega)
    have hlt := padUp_quot_lt (x := C2 * isz) hA
    have hge := le_padUp_quot (x := C2 * isz) hA
    simp only [policyFunc.c_align_size, h1, h2]
    have h3 : PAD_UP (C2 * isz) A
        = (C2 * isz / A + (if C2 * isz % A > 0 then 1 else 0)) * A :=
      wrap64_of_lt (by omega)
    rw [h3]
    exact PAD_UP_le_of_le_mul (Nat.le_trans hx hge)

/-- Within the range of `int` the product `core_num` is the product of natural numbers. -/
theorem core_num_eq {core_dim cluster_num : Nat} (h : core_dim * cluster_num < 2 ^ 31) :
    policyFunc.core_num core_dim cluster_num = core_dim * cluster_num := by
  have h1 : core_dim * cluster_num % 2 ^ 32 = core_dim * cluster_num :=
    Nat.mod_eq_of_lt (by omega)
  simp only [policyFunc.core_num, h1, if_pos h]

theorem k_dim_y_eq_of_le {core_dim cluster_num seg_num : Nat} (hcore : 1 ≤ core_dim)
    (hcore_int : core_dim < 2 ^ 31) (hcore_num : core_dim * cluster_num < 2 ^ 31)
    (hle : seg_num ≤ core_dim * cluster_num) :
    policyFunc.k_dim_y core_dim cluster_num seg_num = (seg_num + core_dim - 1) / core_dim := by
  have hcl : cluster_num ≤ core_dim * cluster_num := Nat.le_mul_of_pos_left _ hcore
  have h2 : wrap64 (seg_num + core_dim) = seg_num + core_dim := wrap64_of_lt (by omega)
  have h3 : sub64 (seg_num + core_dim) 1 = seg_num + core_dim - 1 :=
    sub64_of_le (by omega) (by omega)
  have hq : (seg_num + core_dim - 1) / core_dim ≤ cluster_num := by
    apply Nat.lt_succ_iff.1
    rw [Nat.div_lt_iff_lt_mul hcore, Nat.succ_mul, Nat.mul_comm]
    omega
  simp only [policyFunc.k_dim_y, core_num_eq hcore_num, h2, h3, if_neg (Nat.not_lt.2 hle),
    wrap32]
  exact Nat.mod_eq_of_lt (by omega)

/-- The padded row contains the row and exceeds it by less than one alignment block. -/
theorem paddedRowBytes_bounds {A : Nat} (C isz : Nat) (hA : 0 < A) :
    C * isz ≤ paddedRowBytes A C isz ∧ paddedRowBytes A C isz < C * isz + A :=
  ⟨le_padUp_quot hA, padUp_quot_lt hA⟩

/-- Without wrap-around `c_align_size` is the padded row. -/
theorem c_align_size_eq_paddedRowBytes {A C isz : Nat} (hrep : C * isz + A ≤ 2 ^ 64) :
    policyFunc.c_align_size A C isz = paddedRowBytes A C isz := by
  rcases Nat.eq_zero_or_pos A with hA | hA
  · subst hA; simp [policyFunc.c_align_size, PAD_UP, paddedRowBytes, wrap64]
  · have hw : wrap64 (C * isz) = C * isz := wrap64_of_lt (by omega)
    have hlt := padUp_quot_lt (x := C * isz) hA
    unfold policyFunc.c_align_size paddedRowBytes PAD_UP
    rw [hw]
    exact wrap64_of_lt (by omega)

/-- With alignment 0 the padded size is 0 for every class count. -/
theorem c_align_size_zero_align (C isz : Nat) : policyFunc.c_align_size 0 C isz = 0 := by
  simp [policyFunc.c_align_size, PAD_UP, wrap64]

/-! ## Validation lemmas -/

theorem TORCH_CHECK_bind_ok (c : Bool) (m : Message) (k : Unit → Except Message Unit) :
    (TORCH_CHECK c m >>= k) = .ok () ↔ c = true ∧ k () = .ok () := by
  cases c <;> simp [TORCH_CHECK, bind, Except.bind]

theorem TORCH_CHECK_ok (c : Bool) (m : Message) : TORCH_CHECK c m = .ok () ↔ c = true := by
  cases c <;> simp [TORCH_CHECK]

theorem validation_ok_iff (input target weight output : Tensor) :
    checkFocalLossSigmoidForwardValidation input target weight output = .ok () ↔
      input.dim = 2 ∧ target.dim = 1 ∧ input.size 0 = target.size 0 ∧ output.dim = 2
        ∧ (input.size 0 = output.size 0 ∧ input.size 1 = output.size 1)
        ∧ (input.scalar_type = .Float ∨ input.scalar_type = .Half)
        ∧ target.scalar_type = .Long ∧ output.scalar_type = input.scalar_type
        ∧ (weight.data_ptr ≠ 0 →
            weight.scalar_type = input.scalar_type ∧ weight.dim = 1
              ∧ weight.size 0 = input.size 1) := by
  unfold checkFocalLossSigmoidForwardValidation
  simp only [TORCH_CHECK_bind_ok]
  by_cases hw : weight.data_ptr = 0
  · simp only [hw]
    simp
    intros; rfl
  · simp [hw, TORCH_CHECK_bind_ok, TORCH_CHECK_ok]

/-! ## The rows of a tile -/

/-- C1, evaluated at an input where it fails: on a device with 524288 bytes of scratch memory
per core and alignment 128, a float32 input with 21824 classes and an int64 target pass the
class-count check of the launcher (21824 is exactly `threshold_C`), yet `n_seg` is 0, so
`policyFunc` divides by zero in `seg_num` and the launch has no defined outcome. -/
theorem n_seg_zero_at_threshold :
    Tensor.size ⟨[1, 21824], .Float, 1⟩ 1
        = threshold_C 524288 128 ScalarType.Float.itemsize ScalarType.Long.itemsize
      ∧ policyFunc.n_seg 524288 128 21824 ScalarType.Float.itemsize ScalarType.Long.itemsize = 0
      ∧ policyFunc ⟨524288, 4, 8⟩ 128 .CNRT_FUNC_TYPE_UNION1
          ⟨[1, 21824], .Float, 1⟩ ⟨[1], .Long, 1⟩ ⟨[21824], .Float, 1⟩ = none
      ∧ SigmoidFocalLossForwardMLUKernelLauncher ⟨524288, 4, 8⟩ 128
          ⟨[1, 21824], .Float, 1⟩ ⟨[1], .Long, 1⟩ ⟨[21824], .Float, 1⟩ ⟨[1, 21824], .Float, 1⟩
          (.finite false 2 0) (.finite false 1 (-2)) = .undefined := by
  decide

/-- C2: on a device whose scratch memory `nram_size` (an `int`) holds at least the scalar
region and one target element, `NFU_ALIGN_SIZE + target.itemsize() <= nram_size`, and for a
class count of at most `threshold_C`, the tile of `n_seg` rows fits in scratch memory:
`n_seg * c_align_size * 6 + n_seg * target.itemsize() * 2 + weight_size + scalar_size
<= nram_size`. -/
theorem tile_size_le_nram_size (dev : DeviceAttr) (NFU_ALIGN_SIZE : Nat) (input target : Tensor)
    (hint : dev.nram_size < 2 ^ 31)
    (hbudget : NFU_ALIGN_SIZE + target.itemsize ≤ dev.nram_size)
    (hC : input.size 1
      ≤ threshold_C dev.nram_size NFU_ALIGN_SIZE input.itemsize target.itemsize) :
    policyFunc.tile_size
        (policyFunc.n_seg dev.nram_size NFU_ALIGN_SIZE (input.size 1) input.itemsize
          target.itemsize)
        NFU_ALIGN_SIZE (input.size 1) input.itemsize target.itemsize
      ≤ dev.nram_size := by
  have ht : target.itemsize ≤ 16 := ScalarType.itemsize_le target.dtype
  have hc := c_align_size_of_le_threshold (by omega) (by omega) hbudget hC
  have hfit : policyFunc.weight_size NFU_ALIGN_SIZE (input.size 1) input.itemsize
      + policyFunc.scalar_size NFU_ALIGN_SIZE ≤ dev.nram_size := by
    simp only [policyFunc.weight_size, policyFunc.scalar_size]; omega
  rw [n_seg_eq hint ht hfit]
  simp only [policyFunc.weight_size, policyFunc.scalar_size] at hfit
  simp only [policyFunc.tile_size, policyFunc.weight_size, policyFunc.scalar_size]
  have hdiv := Nat.div_mul_le_self
    (dev.nram_size - policyFunc.c_align_size NFU_ALIGN_SIZE (input.size 1) input.itemsize
      - NFU_ALIGN_SIZE)
    (policyFunc.c_align_size NFU_ALIGN_SIZE (input.size 1) input.itemsize * 6
      + target.itemsize * 2)
  rw [Nat.mul_add, ← Nat.mul_assoc, ← Nat.mul_assoc] at hdiv
  omega

/-- C2 at a float32 input of 80 classes on a device with 524288 bytes of scratch
memory: 225 rows per tile, 522512 bytes. -/
theorem tile_size_le_nram_size_witness :
    (DeviceAttr.mk 524288 4 8).nram_size < 2 ^ 31
      ∧ 128 + (Tensor.mk [1000] .Long 1).itemsize ≤ (DeviceAttr.mk 524288 4 8).nram_size
      ∧ (Tensor.mk [1000, 80] .Float 1).size 1
          ≤ threshold_C (DeviceAttr.mk 524288 4 8).nram_size 128
              (Tensor.mk [1000, 80] .Float 1).itemsize (Tensor.mk [1000] .Long 1).itemsize
      ∧ policyFunc.tile_size
          (policyFunc.n_seg (DeviceAttr.mk 524288 4 8).nram_size 128
            ((Tensor.mk [1000, 80] .Float 1).size 1) (Tensor.mk [1000, 80] .Float 1).itemsize
            (Tensor.mk [1000] .Long 1).itemsize)
          128 ((Tensor.mk [1000, 80] .Float 1).size 1) (Tensor.mk [1000, 80] .Float 1).itemsize
          (Tensor.mk [1000] .Long 1).itemsize
        ≤ (DeviceAttr.mk 524288 4 8).nram_size :=
  ⟨by decide, by decide, by decide,
    tile_size_le_nram_size ⟨524288, 4, 8⟩ 128 ⟨[1000, 80], .Float, 1⟩ ⟨[1000], .Long, 1⟩
      (by decide) (by decide) (by decide)⟩

/-- C3: whenever `weight_size + scalar_size <= nram_size` (with `nram_size` an `int`), the
value `n_seg` of `policyFunc` is the largest number of rows whose tile fits in scratch memory:
the tile of `n_seg` rows fits, the tile of `n_seg + 1` rows exceeds `nram_size`, and every
number of rows that fits is at most `n_seg`. -/
theorem n_seg_is_max_rows (dev : DeviceAttr) (NFU_ALIGN_SIZE : Nat) (input target : Tensor)
    (hint : dev.nram_size < 2 ^ 31)
    (hfit : policyFunc.weight_size NFU_ALIGN_SIZE (input.size 1) input.itemsize
      + policyFunc.scalar_size NFU_ALIGN_SIZE ≤ dev.nram_size) :
    policyFunc.tile_size
        (policyFunc.n_seg dev.nram_size NFU_ALIGN_SIZE (input.size 1) input.itemsize
          target.itemsize)
        NFU_ALIGN_SIZE (input.size 1) input.itemsize target.itemsize ≤ dev.nram_size
      ∧ policyFunc.tile_size
        (policyFunc.n_seg dev.nram_size NFU_ALIGN_SIZE (input.size 1) input.itemsize
          target.itemsize + 1)
        NFU_ALIGN_SIZE (input.size 1) input.itemsize target.itemsize > dev.nram_size
      ∧ ∀ m : Nat,
          policyFunc.tile_size m NFU_ALIGN_SIZE (input.size 1) input.itemsize target.itemsize
            ≤ dev.nram_size →
          m ≤ policyFunc.n_seg dev.nram_size NFU_ALIGN_SIZE (input.size 1) input.itemsize
            target.itemsize := by
  have ht : target.itemsize ≤ 16 := ScalarType.itemsize_le target.dtype
  have ht0 : 0 < target.itemsize := ScalarType.itemsize_pos target.dtype
  rw [n_seg_eq hint ht hfit]
  simp only [policyFunc.weight_size, policyFunc.scalar_size] at hfit
  simp only [policyFunc.tile_size, policyFunc.weight_size, policyFunc.scalar_size]
  generalize policyFunc.c_align_size NFU_ALIGN_SIZE (input.size 1) input.itemsize = c at *
  have hd : 0 < c * 6 + target.itemsize * 2 := by omega
  generalize hq : (dev.nram_size - c - NFU_ALIGN_SIZE) / (c * 6 + target.itemsize * 2) = q
  have hdm := Nat.div_add_mod (dev.nram_size - c - NFU_ALIGN_SIZE) (c * 6 + target.itemsize * 2)
  have hr := Nat.mod_lt (dev.nram_size - c - NFU_ALIGN_SIZE) hd
  rw [hq] at hdm
  have e1 : (c * 6 + target.itemsize * 2) * q = q * c * 6 + q * target.itemsize * 2 := by ring
  have e2 : (q + 1) * c * 6 + (q + 1) * target.itemsize * 2
      = q * c * 6 + q * target.itemsize * 2 + (c * 6 + target.itemsize * 2) := by ring
  refine ⟨by omega, by omega, ?_⟩
  intro m hm
  by_contra hlt
  have hle : q + 1 ≤ m := by omega
  have e3 : (q + 1) * (c * 6 + target.itemsize * 2) ≤ m * (c * 6 + target.itemsize * 2) :=
    Nat.mul_le_mul_right _ hle
  have e4 : m * (c * 6 + target.itemsize * 2) = m * c * 6 + m * target.itemsize * 2 := by ring
  have e5 : (q + 1) * (c * 6 + target.itemsize * 2)
      = q * c * 6 + q * target.itemsize * 2 + (c * 6 + target.itemsize * 2) := by ring
  omega

/-- C3 at a float32 input of 80 classes on a device with 524288 bytes of scratch memory: the
tile of `n_seg` rows fits and the tile of `n_seg + 1` rows does not. -/
theorem n_seg_is_max_rows_witness :
    (DeviceAttr.mk 524288 4 8).nram_size < 2 ^ 31
      ∧ policyFunc.weight_size 128 ((Tensor.mk [1000, 80] .Float 1).size 1)
            (Tensor.mk [1000, 80] .Float 1).itemsize + policyFunc.scalar_size 128
          ≤ (DeviceAttr.mk 524288 4 8).nram_size
      ∧ policyFunc.tile_size
          (policyFunc.n_seg (DeviceAttr.mk 524288 4 8).nram_size 128
            ((Tensor.mk [1000, 80] .Float 1).size 1) (Tensor.mk [1000, 80] .Float 1).itemsize
            (Tensor.mk [1000] .Long 1).itemsize)
          128 ((Tensor.mk [1000, 80] .Float 1).size 1) (Tensor.mk [1000, 80] .Float 1).itemsize
          (Tensor.mk [1000] .Long 1).itemsize
        ≤ (DeviceAttr.mk 524288 4 8).nram_size
      ∧ policyFunc.tile_size
          (policyFunc.n_seg (DeviceAttr.mk 524288 4 8).nram_size 128
            ((Tensor.mk [1000, 80] .Float 1).size 1) (Tensor.mk [1000, 80] .Float 1).itemsize
            (Tensor.mk [1000] .Long 1).itemsize + 1)
          128 ((Tensor.mk [1000, 80] .Float 1).size 1) (Tensor.mk [1000, 80] .Float 1).itemsize
          (Tensor.mk [1000] .Long 1).itemsize
        > (DeviceAttr.mk 524288 4 8).nram_size :=
  ⟨by decide, by decide,
    (n_seg_is_max_rows ⟨524288, 4, 8⟩ 128 ⟨[1000, 80], .Float, 1⟩ ⟨[1000], .Long, 1⟩
      (by decide) (by decide)).1,
    (n_seg_is_max_rows ⟨524288, 4, 8⟩ 128 ⟨[1000, 80], .Float, 1⟩ ⟨[1000], .Long, 1⟩
      (by decide) (by decide)).2.1⟩

/-- C4: for every row count `N` (an `int64_t`) and every value `n_seg >= 1` computed by
`policyFunc`, `seg_num = (N + n_seg - 1) / n_seg` is the ceiling of `N / n_seg`: the tiles cover
all rows, `N <= seg_num * n_seg`, and `seg_num` is the least such number of tiles. -/
theorem seg_num_is_ceil (nram_size NFU_ALIGN_SIZE C input_itemsize target_itemsize N : Nat)
    (hN : N < 2 ^ 63)
    (hn : 1 ≤ policyFunc.n_seg nram_size NFU_ALIGN_SIZE C input_itemsize target_itemsize) :
    N ≤ policyFunc.seg_num N
          (policyFunc.n_seg nram_size NFU_ALIGN_SIZE C input_itemsize target_itemsize)
        * policyFunc.n_seg nram_size NFU_ALIGN_SIZE C input_itemsize target_itemsize
      ∧ ∀ k : Nat,
          N ≤ k * policyFunc.n_seg nram_size NFU_ALIGN_SIZE C input_itemsize target_itemsize →
          policyFunc.seg_num N
            (policyFunc.n_seg nram_size NFU_ALIGN_SIZE C input_itemsize target_itemsize) ≤ k := by
  rw [seg_num_eq hN hn (n_seg_lt hn)]
  exact ceil_div_spec hn

/-- C4 at 1000 rows of 80 float32 classes (225 rows per tile): five tiles cover the rows and
four tiles do not. -/
theorem seg_num_is_ceil_witness :
    1000 < 2 ^ 63
      ∧ 1 ≤ policyFunc.n_seg 524288 128 80 4 8
      ∧ 1000 ≤ policyFunc.seg_num 1000 (policyFunc.n_seg 524288 128 80 4 8)
          * policyFunc.n_seg 524288 128 80 4 8
      ∧ policyFunc.seg_num 1000 (policyFunc.n_seg 524288 128 80 4 8) ≤ 5
      ∧ ¬ 1000 ≤ 4 * policyFunc.n_seg 524288 128 80 4 8 :=
  ⟨by decide, by decide,
    (seg_num_is_ceil 524288 128 80 4 8 1000 (by decide) (by decide)).1,
    (seg_num_is_ceil 524288 128 80 4 8 1000 (by decide) (by decide)).2 5 (by decide),
    by decide⟩

/-- Without wrap-around of the padded byte count, a larger class count has no more rows per
tile. -/
theorem n_seg_le_of_no_wrap {nram A C1 C2 isz tsz : Nat} (hint : nram < 2 ^ 31)
    (ht0 : 0 < tsz) (ht : tsz ≤ 16) (hle : C1 ≤ C2) (hrep : C2 * isz + A ≤ 2 ^ 64)
    (hfit : policyFunc.weight_size A C2 isz + policyFunc.scalar_size A ≤ nram) :
    policyFunc.n_seg nram A C2 isz tsz ≤ policyFunc.n_seg nram A C1 isz tsz := by
  have hc := c_align_size_mono hle hrep
  have hfit1 : policyFunc.weight_size A C1 isz + policyFunc.scalar_size A ≤ nram := by
    simp only [policyFunc.weight_size, policyFunc.scalar_size] at hfit ⊢
    omega
  rw [n_seg_eq hint ht hfit, n_seg_eq hint ht hfit1]
  apply Nat.div_le_div
  · omega
  · omega
  · omega

/-- C5: for a fixed scratch budget (an `int`), alignment and element types, and class counts
`C1 <= C2` whose weight row and scalar region do not exceed the budget (the padded row of `C2`
classes plus `scalar_size` is at most `nram_size`), the rows per tile do not increase:
`n_seg(C2) <= n_seg(C1)`. There the `weight_size` that `policyFunc` computes is the padded row
itself, so the condition is `weight_size + scalar_size <= nram_size`. -/
theorem n_seg_antitone (nram_size NFU_ALIGN_SIZE : Nat) (input_type target_type : ScalarType)
    (C1 C2 : Nat) (hint : nram_size < 2 ^ 31) (hle : C1 ≤ C2)
    (hfit : paddedRowBytes NFU_ALIGN_SIZE C2 input_type.itemsize
      + policyFunc.scalar_size NFU_ALIGN_SIZE ≤ nram_size) :
    policyFunc.n_seg nram_size NFU_ALIGN_SIZE C2 input_type.itemsize target_type.itemsize
        ≤ policyFunc.n_seg nram_size NFU_ALIGN_SIZE C1 input_type.itemsize
            target_type.itemsize
      ∧ policyFunc.weight_size NFU_ALIGN_SIZE C2 input_type.itemsize
          = paddedRowBytes NFU_ALIGN_SIZE C2 input_type.itemsize
      ∧ policyFunc.weight_size NFU_ALIGN_SIZE C2 input_type.itemsize
          + policyFunc.scalar_size NFU_ALIGN_SIZE ≤ nram_size := by
  rcases Nat.eq_zero_or_pos NFU_ALIGN_SIZE with hA | hA
  · subst hA
    refine ⟨?_, ?_, ?_⟩
    · simp only [policyFunc.n_seg, policyFunc.row_size, policyFunc.weight_size,
        c_align_size_zero_align]
      exact Nat.le_refl _
    · simp [policyFunc.weight_size, c_align_size_zero_align, paddedRowBytes]
    · simp only [policyFunc.weight_size, c_align_size_zero_align]
      simp only [paddedRowBytes, Nat.mul_zero] at hfit
      exact hfit
  · have hb := paddedRowBytes_bounds C2 input_type.itemsize hA
    simp only [policyFunc.scalar_size] at hfit
    have hrep : C2 * input_type.itemsize + NFU_ALIGN_SIZE ≤ 2 ^ 64 := by omega
    have hw : policyFunc.weight_size NFU_ALIGN_SIZE C2 input_type.itemsize
        = paddedRowBytes NFU_ALIGN_SIZE C2 input_type.itemsize :=
      c_align_size_eq_paddedRowBytes hrep
    have hfit2 : policyFunc.weight_size NFU_ALIGN_SIZE C2 input_type.itemsize
        + policyFunc.scalar_size NFU_ALIGN_SIZE ≤ nram_size := by
      rw [hw]; exact hfit
    exact ⟨n_seg_le_of_no_wrap hint (ScalarType.itemsize_pos target_type)
      (ScalarType.itemsize_le target_type) hle hrep hfit2, hw, hfit2⟩

/-- C5 at 20 and 80 float32 classes on a device with 524288 bytes of scratch memory: 225 rows
per tile against 668. -/
theorem n_seg_antitone_witness :
    524288 < 2 ^ 31 ∧ 20 ≤ 80
      ∧ paddedRowBytes 128 80 ScalarType.Float.itemsize + policyFunc.scalar_size 128 ≤ 524288
      ∧ policyFunc.n_seg 524288 128 80 ScalarType.Float.itemsize ScalarType.Long.itemsize
          ≤ policyFunc.n_seg 524288 128 20 ScalarType.Float.itemsize
              ScalarType.Long.itemsize :=
  ⟨by decide, by decide, by decide,
    (n_seg_antitone 524288 128 .Float .Long 20 80 (by decide) (by decide) (by decide)).1⟩

/-! ## The grid -/

/-- C6: for every `seg_num` and all `int` values `core_dim >= 1` and `cluster_num` whose
product `core_num` is an `int`: if `seg_num <= core_dim * cluster_num` then `k_dim.y` is the
ceiling of `seg_num / core_dim` (the least `k` with `seg_num <= k * core_dim`), otherwise
`k_dim.y` is `cluster_num`. -/
theorem k_dim_y_spec (core_dim cluster_num seg_num : Nat) (hcore : 1 ≤ core_dim)
    (hcore_int : core_dim < 2 ^ 31) (hcore_num : core_dim * cluster_num < 2 ^ 31) :
    (seg_num ≤ core_dim * cluster_num →
        seg_num ≤ policyFunc.k_dim_y core_dim cluster_num seg_num * core_dim
          ∧ ∀ k : Nat, seg_num ≤ k * core_dim →
              policyFunc.k_dim_y core_dim cluster_num seg_num ≤ k)
      ∧ (¬ seg_num ≤ core_dim * cluster_num →
          policyFunc.k_dim_y core_dim cluster_num seg_num = cluster_num) := by
  constructor
  · intro hle
    rw [k_dim_y_eq_of_le hcore hcore_int hcore_num hle]
    exact ceil_div_spec hcore
  · intro hgt
    have hcl : cluster_num ≤ core_dim * cluster_num := Nat.le_mul_of_pos_left _ hcore
    simp only [policyFunc.k_dim_y, core_num_eq hcore_num, if_pos (Nat.lt_of_not_le hgt),
      wrap32]
    exact Nat.mod_eq_of_lt (by omega)

/-- C6 on 8 clusters of 4 cores: 10 tiles take 3 clusters, 1000 tiles take all 8. -/
theorem k_dim_y_spec_witness :
    1 ≤ 4 ∧ 4 < 2 ^ 31 ∧ 4 * 8 < 2 ^ 31
      ∧ 10 ≤ policyFunc.k_dim_y 4 8 10 * 4
      ∧ policyFunc.k_dim_y 4 8 10 ≤ 3
      ∧ policyFunc.k_dim_y 4 8 1000 = 8 :=
  ⟨by decide, by decide, by decide,
    ((k_dim_y_spec 4 8 10 (by decide) (by decide) (by decide)).1 (by decide)).1,
    ((k_dim_y_spec 4 8 10 (by decide) (by decide) (by decide)).1 (by decide)).2 3
      (by decide),
    (k_dim_y_spec 4 8 1000 (by decide) (by decide) (by decide)).2 (by decide)⟩

/-- C7: for every `seg_num`, `core_dim >= 1` and `cluster_num` whose product `core_num` is an
`int`, the cluster dimension `k_dim.y` of the grid is at most `cluster_num`, in both branches
of its computation. -/
theorem k_dim_y_le_cluster_num (core_dim cluster_num seg_num : Nat) (hcore : 1 ≤ core_dim)
    (hcore_num : core_dim * cluster_num < 2 ^ 31) :
    policyFunc.k_dim_y core_dim cluster_num seg_num ≤ cluster_num := by
  simp only [policyFunc.k_dim_y, core_num_eq hcore_num, wrap32]
  apply Nat.le_trans (Nat.mod_le _ _)
  split
  · exact Nat.le_refl _
  · rename_i hgt
    have hle : seg_num ≤ core_dim * cluster_num := Nat.not_lt.1 hgt
    have hnum : sub64 (wrap64 (seg_num + core_dim)) 1 ≤ seg_num + core_dim - 1 := by
      simp only [sub64, wrap64]
      omega
    apply Nat.le_trans (Nat.div_le_div_right hnum)
    apply Nat.lt_succ_iff.1
    rw [Nat.div_lt_iff_lt_mul hcore, Nat.succ_mul, Nat.mul_comm]
    omega

/-- C7 on 8 clusters of 4 cores, in the saturated branch (1000 tiles) and in the other one
(10 tiles). -/
theorem k_dim_y_le_cluster_num_witness :
    1 ≤ 4 ∧ 4 * 8 < 2 ^ 31 ∧ policyFunc.k_dim_y 4 8 1000 ≤ 8
      ∧ policyFunc.k_dim_y 4 8 10 ≤ 8 :=
  ⟨by decide, by decide, k_dim_y_le_cluster_num 4 8 1000 (by decide) (by decide),
    k_dim_y_le_cluster_num 4 8 10 (by decide) (by decide)⟩

/-! ## The checks of the launcher -/

/-- C8: for every call with `gamma >= 0` and tensors that pass
`checkFocalLossSigmoidForwardValidation`, the launcher raises the class-count error exactly
when `input.size(1) > threshold_C`: above the threshold the call is rejected with the
class-count message (whatever `policyFunc` would compute), and at or below it the call is not
rejected at all. -/
theorem class_count_check (dev : DeviceAttr) (NFU_ALIGN_SIZE : Nat)
    (input target weight output : Tensor) (gamma alpha : float)
    (hgamma : gamma.ge_zero = true)
    (hvalid : checkFocalLossSigmoidForwardValidation input target weight output = .ok ()) :
    (input.size 1 > threshold_C dev.nram_size NFU_ALIGN_SIZE input.itemsize target.itemsize →
        SigmoidFocalLossForwardMLUKernelLauncher dev NFU_ALIGN_SIZE input target weight output
            gamma alpha
          = .rejected (classCountMessage
              (threshold_C dev.nram_size NFU_ALIGN_SIZE input.itemsize target.itemsize)
              (input.size 1)))
      ∧ (¬ input.size 1
            > threshold_C dev.nram_size NFU_ALIGN_SIZE input.itemsize target.itemsize →
          ∀ msg : Message,
            SigmoidFocalLossForwardMLUKernelLauncher dev NFU_ALIGN_SIZE input target weight
              output gamma alpha ≠ .rejected msg) := by
  unfold SigmoidFocalLossForwardMLUKernelLauncher
  simp only [hgamma, hvalid]
  constructor
  · intro hgt
    have : ¬ threshold_C dev.nram_size NFU_ALIGN_SIZE input.itemsize target.itemsize
        ≥ input.size 1 := by omega
    simp [this]
  · intro hle msg
    have : threshold_C dev.nram_size NFU_ALIGN_SIZE input.itemsize target.itemsize
        ≥ input.size 1 := by omega
    simp only [this, not_true_eq_false, if_false]
    split
    · simp
    · split <;> simp

/-- C8 at the boundary, on a device with 524288 bytes of scratch memory where `threshold_C`
is 21824 for float32: 21825 classes are rejected with the class-count message, and 21824
classes are not rejected. -/
theorem class_count_check_witness :
    SigmoidFocalLossForwardMLUKernelLauncher ⟨524288, 4, 8⟩ 128
        ⟨[8, 21825], .Float, 1⟩ ⟨[8], .Long, 1⟩ ⟨[], .Float, 0⟩ ⟨[8, 21825], .Float, 1⟩
        (.finite false 2 0) (.finite false 1 (-2))
      = .rejected (classCountMessage 21824 21825)
    ∧ SigmoidFocalLossForwardMLUKernelLauncher ⟨524288, 4, 8⟩ 128
        ⟨[8, 21824], .Float, 1⟩ ⟨[8], .Long, 1⟩ ⟨[], .Float, 0⟩ ⟨[8, 21824], .Float, 1⟩
        (.finite false 2 0) (.finite false 1 (-2))
      ≠ .rejected (classCountMessage 21824 21824) :=
  ⟨(class_count_check ⟨524288, 4, 8⟩ 128
      ⟨[8, 21825], .Float, 1⟩ ⟨[8], .Long, 1⟩ ⟨[], .Float, 0⟩ ⟨[8, 21825], .Float, 1⟩
      (.finite false 2 0) (.finite false 1 (-2)) (by decide) rfl).1 (by decide),
   (class_count_check ⟨524288, 4, 8⟩ 128
      ⟨[8, 21824], .Float, 1⟩ ⟨[8], .Long, 1⟩ ⟨[], .Float, 0⟩ ⟨[8, 21824], .Float, 1⟩
      (.finite false 2 0) (.finite false 1 (-2)) (by decide) rfl).2 (by decide) _⟩

/-! ## Validation of the tensors -/

/-- C9: with an absent weight (null data pointer), `checkFocalLossSigmoidForwardValidation`
accepts exactly when input is 2-D, target is 1-D with `target.size(0) == input.size(0)`, output
is 2-D with the sizes of input, input is Float or Half, target is Long, and output has the
element type of input. -/
theorem validation_without_weight (input target weight output : Tensor)
    (hweight : weight.data_ptr = 0) :
    checkFocalLossSigmoidForwardValidation input target weight output = .ok () ↔
      input.dim = 2
        ∧ (target.dim = 1 ∧ target.size 0 = input.size 0)
        ∧ (output.dim = 2 ∧ output.size 0 = input.size 0 ∧ output.size 1 = input.size 1)
        ∧ (input.scalar_type = .Float ∨ input.scalar_type = .Half)
        ∧ target.scalar_type = .Long
        ∧ output.scalar_type = input.scalar_type := by
  rw [validation_ok_iff]
  constructor
  · rintro ⟨h1, h2, h3, h4, ⟨h5, h6⟩, h7, h8, h9, -⟩
    exact ⟨h1, ⟨h2, h3.symm⟩, ⟨h4, h5.symm, h6.symm⟩, h7, h8, h9⟩
  · rintro ⟨h1, ⟨h2, h3⟩, ⟨h4, h5, h6⟩, h7, h8, h9⟩
    exact ⟨h1, h2, h3.symm, h4, ⟨h5.symm, h6.symm⟩, h7, h8, h9, fun h => absurd hweight h⟩

/-- C9 on the example of the claim: input of shape `[8, 20]` with output of shape `[8, 21]` is
rejected, and with output of shape `[8, 20]` it is accepted. -/
theorem validation_without_weight_witness :
    (Tensor.mk [] .Float 0).data_ptr = 0
      ∧ checkFocalLossSigmoidForwardValidation
          ⟨[8, 20], .Float, 1⟩ ⟨[8], .Long, 1⟩ ⟨[], .Float, 0⟩ ⟨[8, 21], .Float, 1⟩ ≠ .ok ()
      ∧ checkFocalLossSigmoidForwardValidation
          ⟨[8, 20], .Float, 1⟩ ⟨[8], .Long, 1⟩ ⟨[], .Float, 0⟩ ⟨[8, 20], .Float, 1⟩ = .ok () :=
  ⟨rfl,
   fun h => absurd
     ((validation_without_weight
        ⟨[8, 20], .Float, 1⟩ ⟨[8], .Long, 1⟩ ⟨[], .Float, 0⟩ ⟨[8, 21], .Float, 1⟩ rfl).1
        h).2.2.1.2.2
     (by decide),
   (validation_without_weight
      ⟨[8, 20], .Float, 1⟩ ⟨[8], .Long, 1⟩ ⟨[], .Float, 0⟩ ⟨[8, 20], .Float, 1⟩ rfl).2
     (by decide)⟩

/-- C10: for input, target and output that pass the other checks (validation succeeds when
the weight is absent): a weight with a non-null data pointer is accepted exactly when its
element type equals that of input, it is 1-D and `weight.size(0) == input.size(1)`; a weight
with a null data pointer is accepted whatever its element type and shape. -/
theorem validation_of_weight (input target weight output : Tensor)
    (hother : checkFocalLossSigmoidForwardValidation input target
      { weight with data_ptr := 0 } output = .ok ()) :
    (weight.data_ptr ≠ 0 →
        (checkFocalLossSigmoidForwardValidation input target weight output = .ok () ↔
          weight.scalar_type = input.scalar_type ∧ weight.dim = 1
            ∧ weight.size 0 = input.size 1))
      ∧ (weight.data_ptr = 0 →
          checkFocalLossSigmoidForwardValidation input target weight output = .ok ()) := by
  rw [validation_ok_iff] at hother
  obtain ⟨h1, h2, h3, h4, h5, h6, h7, h8, -⟩ := hother
  constructor
  · intro hw
    rw [validation_ok_iff]
    constructor
    · intro h
      exact h.2.2.2.2.2.2.2.2 hw
    · intro h
      exact ⟨h1, h2, h3, h4, h5, h6, h7, h8, fun _ => h⟩
  · intro hw
    rw [validation_ok_iff]
    exact ⟨h1, h2, h3, h4, h5, h6, h7, h8, fun h => absurd hw h⟩

/-- C10 on the example of the claim: with a float32 input a present float16 weight is
rejected, a present float32 weight of length `input.size(1)` is accepted, and an absent
weight is accepted even as a 3-D float16 tensor. -/
theorem validation_of_weight_witness :
    checkFocalLossSigmoidForwardValidation
        ⟨[8, 20], .Float, 1⟩ ⟨[8], .Long, 1⟩ ⟨[20], .Half, 1⟩ ⟨[8, 20], .Float, 1⟩ ≠ .ok ()
      ∧ checkFocalLossSigmoidForwardValidation
          ⟨[8, 20], .Float, 1⟩ ⟨[8], .Long, 1⟩ ⟨[20], .Float, 1⟩ ⟨[8, 20], .Float, 1⟩ = .ok ()
      ∧ checkFocalLossSigmoidForwardValidation
          ⟨[8, 20], .Float, 1⟩ ⟨[8], .Long, 1⟩ ⟨[1, 2, 3], .Half, 0⟩ ⟨[8, 20], .Float, 1⟩
        = .ok () :=
  ⟨fun h => absurd
     (((validation_of_weight
        ⟨[8, 20], .Float, 1⟩ ⟨[8], .Long, 1⟩ ⟨[20], .Half, 1⟩ ⟨[8, 20], .Float, 1⟩
        rfl).1 (by decide)).1 h).1
     (by decide),
   ((validation_of_weight
      ⟨[8, 20], .Float, 1⟩ ⟨[8], .Long, 1⟩ ⟨[20], .Float, 1⟩ ⟨[8, 20], .Float, 1⟩
      rfl).1 (by decide)).2 (by decide),
   (validation_of_weight
      ⟨[8, 20], .Float, 1⟩ ⟨[8], .Long, 1⟩ ⟨[1, 2, 3], .Half, 0⟩ ⟨[8, 20], .Float, 1⟩
      rfl).2 (by decide)⟩

/-! ## Lemmas on the messages and on the launcher -/

theorem TORCH_CHECK_bind_error (c : Bool) (m : Message) (k : Unit → Except Message Unit)
    (e : Message) :
    (TORCH_CHECK c m >>= k) = .error e ↔ (c = false ∧ m = e) ∨ (c = true ∧ k () = .error e) := by
  cases c <;> simp [TORCH_CHECK, bind, Except.bind]

theorem TORCH_CHECK_error (c : Bool) (m e : Message) :
    TORCH_CHECK c m = .error e ↔ c = false ∧ m = e := by
  cases c <;> simp [TORCH_CHECK]

/-- No message of the validation is the message of the check of `gamma`. -/
theorem validation_error_ne_gammaMessage {input target weight output : Tensor} {msg : Message}
    (h : checkFocalLossSigmoidForwardValidation input target weight output = .error msg)
    (g : float) : msg ≠ gammaMessage g := by
  unfold checkFocalLossSigmoidForwardValidation at h
  simp only [TORCH_CHECK_bind_error] at h
  by_cases hw : weight.data_ptr = 0
  · simp only [hw] at h
    rcases h with h | ⟨-, h | ⟨-, h | ⟨-, h | ⟨-, h | ⟨-, h | ⟨-, h | ⟨-, h | ⟨-, h⟩⟩⟩⟩⟩⟩⟩⟩
    all_goals first
      | (obtain ⟨-, rfl⟩ := h; simp [gammaMessage])
      | simp [pure, Except.pure] at h
  · have hb : (weight.data_ptr != 0) = true := by simpa using hw
    simp only [hb, if_true, TORCH_CHECK_bind_error, TORCH_CHECK_error] at h
    rcases h with h | ⟨-, h | ⟨-, h | ⟨-, h | ⟨-, h | ⟨-, h | ⟨-, h | ⟨-, h | ⟨-, h | ⟨-, h | ⟨-, h⟩⟩⟩⟩⟩⟩⟩⟩⟩⟩
    all_goals (obtain ⟨-, rfl⟩ := h; simp [gammaMessage])

theorem Tensor.numel_of_dim_two {t : Tensor} (h : t.dim = 2) :
    t.numel = t.size 0 * t.size 1 := by
  obtain ⟨sizes, dtype, data_ptr⟩ := t
  simp only [Tensor.dim] at h
  match sizes, h with
  | [a, b], _ => simp [Tensor.numel, Tensor.size]

theorem float.ge_zero_of_lt_zero {x : float} (h : x.lt_zero = true) : x.ge_zero = false := by
  cases x with
  | nan => simp [float.lt_zero] at h
  | inf negative => simpa [float.lt_zero, float.ge_zero] using h
  | finite negative mantissa exponent =>
    simp only [float.lt_zero, Bool.and_eq_true, bne_iff_ne, ne_eq] at h
    simp [float.ge_zero, h.1, h.2]

/-- A call that fails a check invokes no kernel, and no call invokes more than one. -/
theorem launcher_trace_length_le_one (dev : DeviceAttr) (NFU_ALIGN_SIZE : Nat)
    (input target weight output : Tensor) (gamma alpha : float) :
    (SigmoidFocalLossForwardMLUKernelLauncher dev NFU_ALIGN_SIZE input target weight output
        gamma alpha).trace.length ≤ 1
      ∧ ∀ msg : Message,
          SigmoidFocalLossForwardMLUKernelLauncher dev NFU_ALIGN_SIZE input target weight output
              gamma alpha = .rejected msg →
          (SigmoidFocalLossForwardMLUKernelLauncher dev NFU_ALIGN_SIZE input target weight
              output gamma alpha).trace = [] := by
  constructor
  · cases SigmoidFocalLossForwardMLUKernelLauncher dev NFU_ALIGN_SIZE input target weight
      output gamma alpha <;> simp [LaunchOutcome.trace]
  · intro msg h
    rw [h]; rfl

/-- Above the threshold of the launcher the padded row, taken six times, does not fit beside
the scalar region and one target element. -/
theorem paddedRowBytes_of_gt_threshold {nram A C isz tsz : Nat} (hn : nram < 2 ^ 64)
    (ht : tsz < 2 ^ 63) (hA : 0 < A) (hisz : 0 < isz) (hb : A + tsz ≤ nram)
    (hC : C > threshold_C nram A isz tsz) :
    6 * paddedRowBytes A C isz + A + tsz > nram := by
  have h1 : sub64 nram A = nram - A := sub64_of_le (by omega) hn
  have h2 : wrap64 (2 * tsz) / 2 = tsz := by
    rw [wrap64_of_lt (by omega)]; omega
  have h3 : sub64 (nram - A) tsz = nram - A - tsz := sub64_of_le (by omega) (by omega)
  simp only [threshold_C, h1, h2, h3] at hC
  have hq : (nram - A - tsz) / 6 < 2 ^ 64 := by omega
  rw [PAD_DOWN_eq hq] at hC
  generalize hqd : (nram - A - tsz) / 6 = q at hC hq
  have hx : q / A * A < C * isz := (Nat.div_lt_iff_lt_mul hisz).1 hC
  have hge := le_padUp_quot (x := C * isz) hA
  unfold paddedRowBytes
  generalize C * isz / A + (if C * isz % A > 0 then 1 else 0) = m at hge
  have hm : q / A < m := Nat.lt_of_mul_lt_mul_right (Nat.lt_of_lt_of_le hx hge)
  have hmA : (q / A + 1) * A ≤ m * A := Nat.mul_le_mul_right _ hm
  have hdm := Nat.div_add_mod q A
  have hr := Nat.mod_lt q hA
  have e : (q / A + 1) * A = A * (q / A) + A := by ring
  omega

/-! ## The messages of the validation -/

/-- C11, evaluated at an input where it fails: for a float32 input of shape `[8, 20]` and a
3-D output of shape `[8, 20, 1]` the check of the dimension of output fails with the message
"Dimension num of target should be 2. But now is 3.", which names target and does not name
output. On the shape mismatch `[8, 20]` against `[8, 21]` the message does name output. -/
theorem output_dim_message_names_target :
    checkFocalLossSigmoidForwardValidation
        ⟨[8, 20], .Float, 1⟩ ⟨[8], .Long, 1⟩ ⟨[], .Float, 0⟩ ⟨[8, 20, 1], .Float, 1⟩
      = .error [.text "Dimension num of target should be 2. ", .text "But now is ", .num 3,
          .text "."]
    ∧ namesTensor [.text "Dimension num of target should be 2. ", .text "But now is ", .num 3,
          .text "."] "output" = false
    ∧ namesTensor [.text "Dimension num of target should be 2. ", .text "But now is ", .num 3,
          .text "."] "target" = true
    ∧ checkFocalLossSigmoidForwardValidation
        ⟨[8, 20], .Float, 1⟩ ⟨[8], .Long, 1⟩ ⟨[], .Float, 0⟩ ⟨[8, 21], .Float, 1⟩
      = .error [.text "Shape of output and input must be euqal, but now output is ",
          .num 8, .text ", ", .num 21, .text " and input is ", .num 8, .text ", ", .num 20,
          .text "."]
    ∧ namesTensor [.text "Shape of output and input must be euqal, but now output is ",
          .num 8, .text ", ", .num 21, .text " and input is ", .num 8, .text ", ", .num 20,
          .text "."] "output" = true :=
  ⟨rfl, by decide, by decide, rfl, by decide⟩

/-! ## Zero-element tensors, gamma and the kernel invocations -/

/-- C12 as stated fails: a call whose input has 0 rows raises an error when its class count
is above `threshold_C` (30000 against 21824) and when `gamma` is negative, since both checks
run before the return on zero-element tensors. -/
theorem zero_rows_rejected :
    Tensor.size ⟨[0, 30000], .Float, 1⟩ 0 = 0
    ∧ SigmoidFocalLossForwardMLUKernelLauncher ⟨524288, 4, 8⟩ 128
        ⟨[0, 30000], .Float, 1⟩ ⟨[0], .Long, 1⟩ ⟨[], .Float, 0⟩ ⟨[0, 30000], .Float, 1⟩
        (.finite false 2 0) (.finite false 1 (-2))
      = .rejected (classCountMessage 21824 30000)
    ∧ SigmoidFocalLossForwardMLUKernelLauncher ⟨524288, 4, 8⟩ 128
        ⟨[0, 80], .Float, 1⟩ ⟨[0], .Long, 1⟩ ⟨[], .Float, 0⟩ ⟨[0, 80], .Float, 1⟩
        (.finite true 13421773 (-27)) (.finite false 1 (-2))
      = .rejected (gammaMessage (.finite true 13421773 (-27))) := by
  decide

/-- C12, amended: for every call with `gamma >= 0`, tensors that pass the validation and a
class count of at most `threshold_C`, in which the input has 0 rows or target or output has
zero elements, the launcher returns as a no-op: no error is raised, the return precedes
`policyFunc`, and no kernel is invoked. -/
theorem zero_element_skipped (dev : DeviceAttr) (NFU_ALIGN_SIZE : Nat)
    (input target weight output : Tensor) (gamma alpha : float)
    (hgamma : gamma.ge_zero = true)
    (hvalid : checkFocalLossSigmoidForwardValidation input target weight output = .ok ())
    (hC : input.size 1
      ≤ threshold_C dev.nram_size NFU_ALIGN_SIZE input.itemsize target.itemsize)
    (hzero : input.size 0 = 0 ∨ target.numel = 0 ∨ output.numel = 0) :
    SigmoidFocalLossForwardMLUKernelLauncher dev NFU_ALIGN_SIZE input target weight output
        gamma alpha = .skipped
      ∧ (SigmoidFocalLossForwardMLUKernelLauncher dev NFU_ALIGN_SIZE input target weight output
        gamma alpha).trace = [] := by
  have hdim : input.dim = 2 := ((validation_ok_iff input target weight output).1 hvalid).1
  have hnumel : input.numel = 0 ∨ target.numel = 0 ∨ output.numel = 0 := by
    rcases hzero with h | h | h
    · left; rw [Tensor.numel_of_dim_two hdim, h, Nat.zero_mul]
    · right; left; exact h
    · right; right; exact h
  have hskip : SigmoidFocalLossForwardMLUKernelLauncher dev NFU_ALIGN_SIZE input target weight
      output gamma alpha = .skipped := by
    unfold SigmoidFocalLossForwardMLUKernelLauncher
    simp only [hgamma, hvalid]
    have hge : threshold_C dev.nram_size NFU_ALIGN_SIZE input.itemsize target.itemsize
        ≥ input.size 1 := hC
    simp [hge, hnumel]
  exact ⟨hskip, by rw [hskip]; rfl⟩

/-- The amended C12 at an input of shape `[0, 80]`. -/
theorem zero_element_skipped_witness :
    float.ge_zero (.finite false 2 0) = true
    ∧ checkFocalLossSigmoidForwardValidation
        ⟨[0, 80], .Float, 1⟩ ⟨[0], .Long, 1⟩ ⟨[], .Float, 0⟩ ⟨[0, 80], .Float, 1⟩ = .ok ()
    ∧ Tensor.size ⟨[0, 80], .Float, 1⟩ 0 = 0
    ∧ SigmoidFocalLossForwardMLUKernelLauncher ⟨524288, 4, 8⟩ 128
        ⟨[0, 80], .Float, 1⟩ ⟨[0], .Long, 1⟩ ⟨[], .Float, 0⟩ ⟨[0, 80], .Float, 1⟩
        (.finite false 2 0) (.finite false 1 (-2)) = .skipped
    ∧ (SigmoidFocalLossForwardMLUKernelLauncher ⟨524288, 4, 8⟩ 128
        ⟨[0, 80], .Float, 1⟩ ⟨[0], .Long, 1⟩ ⟨[], .Float, 0⟩ ⟨[0, 80], .Float, 1⟩
        (.finite false 2 0) (.finite false 1 (-2))).trace = [] :=
  ⟨by decide, rfl, by decide,
    zero_element_skipped ⟨524288, 4, 8⟩ 128
      ⟨[0, 80], .Float, 1⟩ ⟨[0], .Long, 1⟩ ⟨[], .Float, 0⟩ ⟨[0, 80], .Float, 1⟩
      (.finite false 2 0) (.finite false 1 (-2)) (by decide) rfl (by decide)
      (Or.inl (by decide))⟩

/-- C13: the launcher rejects a call with the message of the check of `gamma` exactly when
`gamma >= 0` is false. Every `gamma < 0` is rejected with that message whatever the tensors
are, so before any check of the tensors; a `gamma` with `gamma >= 0`, in particular a zero of
either sign, is never rejected with it. -/
theorem gamma_check (dev : DeviceAttr) (NFU_ALIGN_SIZE : Nat)
    (input target weight output : Tensor) (gamma alpha : float) :
    (gamma.ge_zero = false →
        SigmoidFocalLossForwardMLUKernelLauncher dev NFU_ALIGN_SIZE input target weight output
          gamma alpha = .rejected (gammaMessage gamma))
      ∧ (gamma.ge_zero = true → ∀ g : float,
          SigmoidFocalLossForwardMLUKernelLauncher dev NFU_ALIGN_SIZE input target weight output
            gamma alpha ≠ .rejected (gammaMessage g))
      ∧ (gamma.lt_zero = true →
          SigmoidFocalLossForwardMLUKernelLauncher dev NFU_ALIGN_SIZE input target weight output
            gamma alpha = .rejected (gammaMessage gamma))
      ∧ (∀ (negative : Bool) (exponent : Int), gamma = .finite negative 0 exponent →
          ∀ g : float,
            SigmoidFocalLossForwardMLUKernelLauncher dev NFU_ALIGN_SIZE input target weight
              output gamma alpha ≠ .rejected (gammaMessage g)) := by
  have hrej : gamma.ge_zero = false →
      SigmoidFocalLossForwardMLUKernelLauncher dev NFU_ALIGN_SIZE input target weight output
        gamma alpha = .rejected (gammaMessage gamma) := by
    intro h
    unfold SigmoidFocalLossForwardMLUKernelLauncher
    simp [h]
  have hpass : gamma.ge_zero = true → ∀ g : float,
      SigmoidFocalLossForwardMLUKernelLauncher dev NFU_ALIGN_SIZE input target weight output
        gamma alpha ≠ .rejected (gammaMessage g) := by
    intro h g
    unfold SigmoidFocalLossForwardMLUKernelLauncher
    simp only [h, not_true_eq_false, if_false]
    split
    · rename_i msg hmsg
      intro heq
      injection heq with heq
      exact validation_error_ne_gammaMessage hmsg g heq
    · split
      · simp [classCountMessage, gammaMessage]
      · split
        · simp
        · split <;> simp
  refine ⟨hrej, hpass, fun h => hrej (float.ge_zero_of_lt_zero h), ?_⟩
  intro negative exponent h0
  apply hpass
  subst h0
  simp [float.ge_zero]

/-- C13 at `gamma = -0.1` (the single precision value `-13421773 * 2 ^ -27`) with a 3-D input,
which is rejected for `gamma`, and at `gamma = 0` with well-formed tensors, which is not. -/
theorem gamma_check_witness :
    float.lt_zero (.finite true 13421773 (-27)) = true
    ∧ SigmoidFocalLossForwardMLUKernelLauncher ⟨524288, 4, 8⟩ 128
        ⟨[8, 20, 1], .Double, 1⟩ ⟨[8], .Long, 1⟩ ⟨[], .Float, 0⟩ ⟨[8, 20], .Float, 1⟩
        (.finite true 13421773 (-27)) (.finite false 1 (-2))
      = .rejected (gammaMessage (.finite true 13421773 (-27)))
    ∧ SigmoidFocalLossForwardMLUKernelLauncher ⟨524288, 4, 8⟩ 128
        ⟨[8, 20], .Float, 1⟩ ⟨[8], .Long, 1⟩ ⟨[], .Float, 0⟩ ⟨[8, 20], .Float, 1⟩
        (.finite false 0 0) (.finite false 1 (-2))
      ≠ .rejected (gammaMessage (.finite false 0 0)) :=
  ⟨by decide,
    (gamma_check ⟨524288, 4, 8⟩ 128
      ⟨[8, 20, 1], .Double, 1⟩ ⟨[8], .Long, 1⟩ ⟨[], .Float, 0⟩ ⟨[8, 20], .Float, 1⟩
      (.finite true 13421773 (-27)) (.finite false 1 (-2))).2.2.1 (by decide),
    (gamma_check ⟨524288, 4, 8⟩ 128
      ⟨[8, 20], .Float, 1⟩ ⟨[8], .Long, 1⟩ ⟨[], .Float, 0⟩ ⟨[8, 20], .Float, 1⟩
      (.finite false 0 0) (.finite false 1 (-2))).2.2.2 false 0 rfl _⟩

/-- C14, evaluated at an input where it fails: on a device with 524288 bytes of scratch memory
and alignment 128, a call with `gamma = 2`, a float32 input of shape `[1, 21824]` and matching
target, weight and output passes the check of `gamma`, the validation and the class-count
check, and no tensor is empty; yet `policyFunc` divides by zero and the kernel is not
invoked. -/
theorem no_launch_at_threshold :
    float.ge_zero (.finite false 2 0) = true
    ∧ checkFocalLossSigmoidForwardValidation
        ⟨[1, 21824], .Float, 1⟩ ⟨[1], .Long, 1⟩ ⟨[21824], .Float, 1⟩ ⟨[1, 21824], .Float, 1⟩
      = .ok ()
    ∧ Tensor.size ⟨[1, 21824], .Float, 1⟩ 1
        ≤ threshold_C 524288 128 ScalarType.Float.itemsize ScalarType.Long.itemsize
    ∧ Tensor.numel ⟨[1, 21824], .Float, 1⟩ ≠ 0
    ∧ Tensor.numel ⟨[1], .Long, 1⟩ ≠ 0
    ∧ SigmoidFocalLossForwardMLUKernelLauncher ⟨524288, 4, 8⟩ 128
        ⟨[1, 21824], .Float, 1⟩ ⟨[1], .Long, 1⟩ ⟨[21824], .Float, 1⟩ ⟨[1, 21824], .Float, 1⟩
        (.finite false 2 0) (.finite false 1 (-2)) = .undefined
    ∧ (SigmoidFocalLossForwardMLUKernelLauncher ⟨524288, 4, 8⟩ 128
        ⟨[1, 21824], .Float, 1⟩ ⟨[1], .Long, 1⟩ ⟨[21824], .Float, 1⟩ ⟨[1, 21824], .Float, 1⟩
        (.finite false 2 0) (.finite false 1 (-2))).trace = [] :=
  ⟨by decide, rfl, by decide, by decide, by decide, by decide, by decide⟩

/-! ## The class-count threshold -/

/-- C15: the class-count check never rejects a feasible shape. For a positive alignment and
every scratch budget `nram_size` (an `int`) of at least `NFU_ALIGN_SIZE + target.itemsize()`,
element types and class count `C`: if `C > threshold_C` then not even one row fits, the padded
row of `C` classes taken for `c_align_size` and `weight_size` gives
`1 * c_align_size * 6 + 1 * target.itemsize() * 2 + weight_size + scalar_size > nram_size`;
and the same holds of the values that `policyFunc` computes whenever the padded byte count is
a `size_t` value. -/
theorem rejected_class_count_has_no_room (dev : DeviceAttr) (NFU_ALIGN_SIZE : Nat)
    (input target : Tensor) (hint : dev.nram_size < 2 ^ 31) (halign : 0 < NFU_ALIGN_SIZE)
    (hbudget : NFU_ALIGN_SIZE + target.itemsize ≤ dev.nram_size)
    (hC : input.size 1
      > threshold_C dev.nram_size NFU_ALIGN_SIZE input.itemsize target.itemsize) :
    1 * paddedRowBytes NFU_ALIGN_SIZE (input.size 1) input.itemsize * 6
          + 1 * target.itemsize * 2
          + paddedRowBytes NFU_ALIGN_SIZE (input.size 1) input.itemsize
          + policyFunc.scalar_size NFU_ALIGN_SIZE
        > dev.nram_size
      ∧ (input.size 1 * input.itemsize + NFU_ALIGN_SIZE ≤ 2 ^ 64 →
          policyFunc.tile_size 1 NFU_ALIGN_SIZE (input.size 1) input.itemsize target.itemsize
            > dev.nram_size) := by
  have ht : target.itemsize ≤ 16 := ScalarType.itemsize_le target.dtype
  have hi : 0 < input.itemsize := ScalarType.itemsize_pos input.dtype
  have hc := paddedRowBytes_of_gt_threshold (by omega) (by omega) halign hi hbudget hC
  constructor
  · simp only [policyFunc.scalar_size]
    omega
  · intro hrep
    simp only [policyFunc.tile_size, policyFunc.weight_size, policyFunc.scalar_size,
      c_align_size_eq_paddedRowBytes hrep]
    omega

/-- C15 at 30000 float32 classes on a device with 524288 bytes of scratch memory, where
`threshold_C` is 21824: one row takes 840592 bytes. -/
theorem rejected_class_count_has_no_room_witness :
    (DeviceAttr.mk 524288 4 8).nram_size < 2 ^ 31 ∧ 0 < 128
    ∧ 128 + (Tensor.mk [8] .Long 1).itemsize ≤ (DeviceAttr.mk 524288 4 8).nram_size
    ∧ (Tensor.mk [8, 30000] .Float 1).size 1
        > threshold_C (DeviceAttr.mk 524288 4 8).nram_size 128
            (Tensor.mk [8, 30000] .Float 1).itemsize (Tensor.mk [8] .Long 1).itemsize
    ∧ 1 * paddedRowBytes 128 ((Tensor.mk [8, 30000] .Float 1).size 1)
            (Tensor.mk [8, 30000] .Float 1).itemsize * 6
          + 1 * (Tensor.mk [8] .Long 1).itemsize * 2
          + paddedRowBytes 128 ((Tensor.mk [8, 30000] .Float 1).size 1)
            (Tensor.mk [8, 30000] .Float 1).itemsize
          + policyFunc.scalar_size 128
        > (DeviceAttr.mk 524288 4 8).nram_size
    ∧ policyFunc.tile_size 1 128 ((Tensor.mk [8, 30000] .Float 1).size 1)
          (Tensor.mk [8, 30000] .Float 1).itemsize (Tensor.mk [8] .Long 1).itemsize
        > (DeviceAttr.mk 524288 4 8).nram_size :=
  ⟨by decide, by decide, by decide, by decide,
    (rejected_class_count_has_no_room ⟨524288, 4, 8⟩ 128 ⟨[8, 30000], .Float, 1⟩
      ⟨[8], .Long, 1⟩ (by decide) (by decide) (by decide) (by decide)).1,
    (rejected_class_count_has_no_room ⟨524288, 4, 8⟩ 128 ⟨[8, 30000], .Float, 1⟩
      ⟨[8], .Long, 1⟩ (by decide) (by decide) (by decide) (by decide)).2 (by decide)⟩

/-- C16: for every scratch budget `nram_size` (an `int`) of at least
`NFU_ALIGN_SIZE + target.itemsize()` and every class count `C <= threshold_C`,
`6 * c_align_size + NFU_ALIGN_SIZE + target.itemsize() <= nram_size`, hence
`weight_size + scalar_size <= nram_size`, and the unsigned subtraction in the numerator of
`n_seg` is the exact difference. -/
theorem numerator_does_not_underflow (dev : DeviceAttr) (NFU_ALIGN_SIZE : Nat)
    (input target : Tensor) (hint : dev.nram_size < 2 ^ 31)
    (hbudget : NFU_ALIGN_SIZE + target.itemsize ≤ dev.nram_size)
    (hC : input.size 1
      ≤ threshold_C dev.nram_size NFU_ALIGN_SIZE input.itemsize target.itemsize) :
    6 * policyFunc.c_align_size NFU_ALIGN_SIZE (input.size 1) input.itemsize
          + NFU_ALIGN_SIZE + target.itemsize ≤ dev.nram_size
      ∧ policyFunc.weight_size NFU_ALIGN_SIZE (input.size 1) input.itemsize
          + policyFunc.scalar_size NFU_ALIGN_SIZE ≤ dev.nram_size
      ∧ sub64 (sub64 dev.nram_size
            (policyFunc.weight_size NFU_ALIGN_SIZE (input.size 1) input.itemsize))
          (policyFunc.scalar_size NFU_ALIGN_SIZE)
        = dev.nram_size - policyFunc.weight_size NFU_ALIGN_SIZE (input.size 1) input.itemsize
          - policyFunc.scalar_size NFU_ALIGN_SIZE := by
  have ht : target.itemsize ≤ 16 := ScalarType.itemsize_le target.dtype
  have hc := c_align_size_of_le_threshold (by omega) (by omega) hbudget hC
  simp only [policyFunc.weight_size, policyFunc.scalar_size]
  refine ⟨hc, by omega, ?_⟩
  have e1 : sub64 dev.nram_size
      (policyFunc.c_align_size NFU_ALIGN_SIZE (input.size 1) input.itemsize)
      = dev.nram_size - policyFunc.c_align_size NFU_ALIGN_SIZE (input.size 1) input.itemsize :=
    sub64_of_le (by omega) (by omega)
  rw [e1]
  exact sub64_of_le (by omega) (by omega)

/-- C16 at the largest accepted class count, 21824 float32 classes on a device with 524288
bytes of scratch memory. -/
theorem numerator_does_not_underflow_witness :
    (DeviceAttr.mk 524288 4 8).nram_size < 2 ^ 31
    ∧ 128 + (Tensor.mk [1] .Long 1).itemsize ≤ (DeviceAttr.mk 524288 4 8).nram_size
    ∧ (Tensor.mk [1, 21824] .Float 1).size 1
        ≤ threshold_C (DeviceAttr.mk 524288 4 8).nram_size 128
            (Tensor.mk [1, 21824] .Float 1).itemsize (Tensor.mk [1] .Long 1).itemsize
    ∧ 6 * policyFunc.c_align_size 128 ((Tensor.mk [1, 21824] .Float 1).size 1)
            (Tensor.mk [1, 21824] .Float 1).itemsize
          + 128 + (Tensor.mk [1] .Long 1).itemsize ≤ (DeviceAttr.mk 524288 4 8).nram_size
    ∧ policyFunc.weight_size 128 ((Tensor.mk [1, 21824] .Float 1).size 1)
            (Tensor.mk [1, 21824] .Float 1).itemsize
          + policyFunc.scalar_size 128 ≤ (DeviceAttr.mk 524288 4 8).nram_size :=
  ⟨by decide, by decide, by decide,
    (numerator_does_not_underflow ⟨524288, 4, 8⟩ 128 ⟨[1, 21824], .Float, 1⟩ ⟨[1], .Long, 1⟩
      (by decide) (by decide) (by decide)).1,
    (numerator_does_not_underflow ⟨524288, 4, 8⟩ 128 ⟨[1, 21824], .Float, 1⟩ ⟨[1], .Long, 1⟩
      (by decide) (by decide) (by decide)).2.1⟩

/-! ## The grid of a launch -/

/-- C17: for every row count `N >= 1` (an `int64_t`), every `n_seg >= 1` computed by
`policyFunc` and all `int` values `core_dim >= 1` and `cluster_num >= 1` whose product
`core_num` is an `int`, `policyFunc` returns a task dimension with `k_dim.y >= 1` and
`k_dim.z == 1`, and whenever `seg_num <= core_dim * cluster_num` the grid has a core for every
tile, `k_dim.y * core_dim >= seg_num`. -/
theorem grid_nonempty (dev : DeviceAttr) (NFU_ALIGN_SIZE : Nat) (k_type : cnrtFunctionType_t)
    (input target weight : Tensor)
    (hN : 1 ≤ input.size 0) (hN_int : input.size 0 < 2 ^ 63)
    (hn : 1 ≤ policyFunc.n_seg dev.nram_size NFU_ALIGN_SIZE (input.size 1) input.itemsize
      target.itemsize)
    (hcore : 1 ≤ dev.core_dim) (hcluster : 1 ≤ dev.cluster_num)
    (hcore_num : dev.core_dim * dev.cluster_num < 2 ^ 31) :
    ∃ k_dim : cnrtDim3_t,
      policyFunc dev NFU_ALIGN_SIZE k_type input target weight = some k_dim
        ∧ 1 ≤ k_dim.y ∧ k_dim.z = 1
        ∧ (policyFunc.seg_num (input.size 0)
              (policyFunc.n_seg dev.nram_size NFU_ALIGN_SIZE (input.size 1) input.itemsize
                target.itemsize) ≤ dev.core_dim * dev.cluster_num →
            policyFunc.seg_num (input.size 0)
              (policyFunc.n_seg dev.nram_size NFU_ALIGN_SIZE (input.size 1) input.itemsize
                target.itemsize) ≤ k_dim.y * dev.core_dim) := by
  have hcore_int : dev.core_dim < 2 ^ 31 :=
    Nat.lt_of_le_of_lt (Nat.le_mul_of_pos_right _ hcluster) hcore_num
  have hcluster_int : dev.cluster_num < 2 ^ 31 :=
    Nat.lt_of_le_of_lt (Nat.le_mul_of_pos_left _ hcore) hcore_num
  have hrow : policyFunc.row_size NFU_ALIGN_SIZE (input.size 1) input.itemsize target.itemsize
      ≠ 0 := by
    intro h0
    unfold policyFunc.n_seg at hn
    rw [h0, Nat.div_zero] at hn
    omega
  have hn0 : policyFunc.n_seg dev.nram_size NFU_ALIGN_SIZE (input.size 1) input.itemsize
      target.itemsize ≠ 0 := by omega
  have hc0 : dev.core_dim ≠ 0 := by omega
  have hseg := seg_num_eq hN_int hn (n_seg_lt hn)
  generalize hnd : policyFunc.n_seg dev.nram_size NFU_ALIGN_SIZE (input.size 1)
      input.itemsize target.itemsize = n at *
  have hseg1 : 1 ≤ policyFunc.seg_num (input.size 0) n := by
    rw [hseg]
    exact (Nat.le_div_iff_mul_le hn).2 (by omega)
  refine ⟨⟨k_type, policyFunc.k_dim_y dev.core_dim dev.cluster_num
      (policyFunc.seg_num (input.size 0) n), 1⟩, ?_, ?_, rfl, ?_⟩
  · unfold policyFunc
    simp [hrow, hnd, hn0, hc0]
  · show 1 ≤ policyFunc.k_dim_y dev.core_dim dev.cluster_num
      (policyFunc.seg_num (input.size 0) n)
    by_cases hle : policyFunc.seg_num (input.size 0) n ≤ dev.core_dim * dev.cluster_num
    · rw [k_dim_y_eq_of_le hcore hcore_int hcore_num hle]
      exact (Nat.le_div_iff_mul_le hcore).2 (by omega)
    · simp only [policyFunc.k_dim_y, core_num_eq hcore_num, if_pos (Nat.lt_of_not_le hle),
        wrap32]
      rw [Nat.mod_eq_of_lt (by omega)]
      exact hcluster
  · intro hle
    show policyFunc.seg_num (input.size 0) n
      ≤ policyFunc.k_dim_y dev.core_dim dev.cluster_num (policyFunc.seg_num (input.size 0) n)
        * dev.core_dim
    rw [k_dim_y_eq_of_le hcore hcore_int hcore_num hle]
    exact (ceil_div_spec hcore).1

/-- C17 at 1000 rows of 80 float32 classes on 8 clusters of 4 cores: 5 tiles, 2 clusters. -/
theorem grid_nonempty_witness :
    1 ≤ (Tensor.mk [1000, 80] .Float 1).size 0
    ∧ 1 ≤ policyFunc.n_seg (DeviceAttr.mk 524288 4 8).nram_size 128
        ((Tensor.mk [1000, 80] .Float 1).size 1) (Tensor.mk [1000, 80] .Float 1).itemsize
        (Tensor.mk [1000] .Long 1).itemsize
    ∧ (DeviceAttr.mk 524288 4 8).core_dim * (DeviceAttr.mk 524288 4 8).cluster_num < 2 ^ 31
    ∧ policyFunc ⟨524288, 4, 8⟩ 128 .CNRT_FUNC_TYPE_UNION1
        ⟨[1000, 80], .Float, 1⟩ ⟨[1000], .Long, 1⟩ ⟨[], .Float, 0⟩
      = some ⟨.CNRT_FUNC_TYPE_UNION1, 2, 1⟩
    ∧ ∃ k_dim : cnrtDim3_t,
        policyFunc ⟨524288, 4, 8⟩ 128 .CNRT_FUNC_TYPE_UNION1
            ⟨[1000, 80], .Float, 1⟩ ⟨[1000], .Long, 1⟩ ⟨[], .Float, 0⟩ = some k_dim
          ∧ 1 ≤ k_dim.y ∧ k_dim.z = 1
          ∧ (policyFunc.seg_num ((Tensor.mk [1000, 80] .Float 1).size 0)
                (policyFunc.n_seg (DeviceAttr.mk 524288 4 8).nram_size 128
                  ((Tensor.mk [1000, 80] .Float 1).size 1)
                  (Tensor.mk [1000, 80] .Float 1).itemsize
                  (Tensor.mk [1000] .Long 1).itemsize)
                ≤ (DeviceAttr.mk 524288 4 8).core_dim * (DeviceAttr.mk 524288 4 8).cluster_num →
              policyFunc.seg_num ((Tensor.mk [1000, 80] .Float 1).size 0)
                (policyFunc.n_seg (DeviceAttr.mk 524288 4 8).nram_size 128
                  ((Tensor.mk [1000, 80] .Float 1).size 1)
                  (Tensor.mk [1000, 80] .Float 1).itemsize
                  (Tensor.mk [1000] .Long 1).itemsize)
                ≤ k_dim.y * (DeviceAttr.mk 524288 4 8).core_dim) :=
  ⟨by decide, by decide, by decide, by decide,
    grid_nonempty ⟨524288, 4, 8⟩ 128 .CNRT_FUNC_TYPE_UNION1
      ⟨[1000, 80], .Float, 1⟩ ⟨[1000], .Long, 1⟩ ⟨[], .Float, 0⟩
      (by decide) (by decide) (by decide) (by decide) (by decide) (by decide)⟩

end FocalLossSigmoidMLU
